import Mathlib

/-
Verification of the session-store and agentic answer pipeline of the
resources-ai-chatbot-plugin repository (chatbot-core).

The Python sources are shallowly embedded as executable Lean definitions:

* `api/services/chat_service.py`   - query classification, the retrieve-judge
  loop of the simple-query pipeline, decomposition fallback, tool execution.
* `api/models/schemas.py`          - `QueryType` and its parsing helpers.
* `api/services/context_manager.py`- history trimming (`enforce_context_limit`).
* `api/services/memory.py`         - the in-process session store.
* `api/services/sessionmanager.py` - the durable (disk) collaborator.
* `api/routes/chatbot.py`          - the session-existence guard of the
  message endpoint.

The LLM generation capability, the tool registry and the retrieval engine are
external collaborators; they are modelled as oracle parameters (functions
supplied to the embedded code), exactly at the call boundaries the Python code
uses.  Python dicts are modelled as association lists keyed by `String`,
Python `datetime` timestamps as `Nat`.
-/

namespace ChatbotCore

/-! ## Regex models (chat_service.py `_extract_query_type`, `_extract_relevance_score`)

Python's `re` word character class `\w` is modelled by ASCII alphanumerics
plus underscore (the Unicode extension of `\w` is irrelevant to the ASCII
tokens `SIMPLE`, `MULTI`, `Label:` matched here), and `\s` by
`Char.isWhitespace`. -/

/-- Model of the regex word-character class `\w` (ASCII approximation). -/
def isWordChar (c : Char) : Bool := c.isAlphanum || c == '_'

/-- Case-insensitive character comparison, as under `re.IGNORECASE`. -/
def charLowerEq (a b : Char) : Bool := a.toLower == b.toLower

/-- Does `tok` match a prefix of `s` case-insensitively? -/
def matchesCI : List Char → List Char → Bool
  | [], _ => true
  | _ :: _, [] => false
  | t :: ts, c :: cs => charLowerEq t c && matchesCI ts cs

/-- A case-insensitive match of `tok` at the head of `s` that also satisfies
the trailing word boundary `\b` (the leading boundary is checked by the
scanner, which knows the preceding character). -/
def wordMatchAt (tok : List Char) (s : List Char) : Bool :=
  matchesCI tok s &&
    (match s.drop tok.length with
     | [] => true
     | c :: _ => !isWordChar c)

/-- The token `SIMPLE` as a character list. -/
def simpleTok : List Char := ['S', 'I', 'M', 'P', 'L', 'E']

/-- The token `MULTI` as a character list. -/
def multiTok : List Char := ['M', 'U', 'L', 'T', 'I']

/-- Scanner for `re.search(r"\b(SIMPLE|MULTI)\b", response, re.IGNORECASE)`:
at each position (left to right) the alternation tries `SIMPLE` first, then
`MULTI`; `prevIsWord` records whether the previous character was a word
character (for the leading `\b`). -/
def scanQueryTypeTok (prevIsWord : Bool) : List Char → Option String
  | [] => none
  | c :: cs =>
    if !prevIsWord && wordMatchAt simpleTok (c :: cs) then some "SIMPLE"
    else if !prevIsWord && wordMatchAt multiTok (c :: cs) then some "MULTI"
    else scanQueryTypeTok (isWordChar c) cs

/-- `chat_service._extract_query_type`: the word-bounded case-insensitive
search for `SIMPLE` or `MULTI`, uppercased on success, `""` on failure. -/
def extractQueryType (response : String) : String :=
  (scanQueryTypeTok false response.data).getD ""

/-- Auxiliary scanner: does `s` contain a word-bounded case-insensitive
occurrence of `tok`?  (Same traversal as `scanQueryTypeTok`, for one token.) -/
def containsWordTokenAux (tok : List Char) (prevIsWord : Bool) : List Char → Bool
  | [] => false
  | c :: cs =>
    (!prevIsWord && wordMatchAt tok (c :: cs)) || containsWordTokenAux tok (isWordChar c) cs

/-- `s` contains a word-bounded, case-insensitive occurrence of `tok`. -/
def containsWordToken (tok : List Char) (s : String) : Bool :=
  containsWordTokenAux tok false s.data

/-- The token `label:` (matched case-insensitively) of the relevance regex. -/
def labelTok : List Char := ['l', 'a', 'b', 'e', 'l', ':']

/-- One attempted match of `Label:\s*([01])` at the head of `s`, returning the
captured digit. -/
def relMatchAt (s : List Char) : Option Nat :=
  if matchesCI labelTok s then
    match (s.drop 6).dropWhile Char.isWhitespace with
    | '0' :: _ => some 0
    | '1' :: _ => some 1
    | _ => none
  else none

/-- Left-to-right search for `Label:\s*([01])`. -/
def relScan : List Char → Option Nat
  | [] => none
  | c :: cs =>
    match relMatchAt (c :: cs) with
    | some n => some n
    | none => relScan cs

/-- `chat_service._extract_relevance_score`: extract the binary label from a
`Label: N` response; any unparseable output defaults to `0`. -/
def extractRelevanceScore (response : String) : Nat :=
  (relScan response.data).getD 0

/-! ## `schemas.py`: `QueryType` and its parsing -/

/-- `schemas.QueryType`. -/
inductive QueryType where
  | MULTI
  | SIMPLE
deriving DecidableEq

/-- `schemas.is_valid_query_type`: membership in `QueryType.__members__`
(exact, case-sensitive member names). -/
def isValidQueryType (s : String) : Bool := s == "MULTI" || s == "SIMPLE"

/-- `schemas.str_to_query_type`: `QueryType[input_str]`, `none` modelling the
`ValueError` raised on an invalid member name. -/
def strToQueryType (s : String) : Option QueryType :=
  if s == "MULTI" then some .MULTI
  else if s == "SIMPLE" then some .SIMPLE
  else none

/-- `schemas.try_str_to_query_type`: invalid labels are replaced by `MULTI`
before conversion (so the conversion itself can no longer fail; the `.getD`
branch is unreachable). -/
def tryStrToQueryType (s : String) : QueryType :=
  (strToQueryType (if isValidQueryType s then s else "MULTI")).getD .MULTI

/-- Composition used by `chat_service._get_query_type` on a raw classifier
output: extract the token, then convert with the `MULTI` default. -/
def routeQueryType (response : String) : QueryType :=
  tryStrToQueryType (extractQueryType response)

/-! ## Chat messages and `prompt_builder.py` -/

/-- One chat message (LangChain message / persisted dict): `role` is the
LangChain message type (`"human"` for user turns, `"ai"` for assistant
turns), `content` its text. -/
structure ChatMsg where
  role : String
  content : String
deriving DecidableEq

/-- Python's `str.strip()` (whitespace modelled by `Char.isWhitespace`):
drop leading and trailing whitespace. -/
def pyStrip (s : String) : String :=
  ⟨((s.data.dropWhile Char.isWhitespace).reverse.dropWhile Char.isWhitespace).reverse⟩

/-- `prompt_builder.build_prompt` with `log_context=None` (the only form the
pipeline uses).  `sysInstr` stands for the prompt constant
`SYSTEM_INSTRUCTION`, whose text lives in `api/prompts/prompts.py` (not among
the sources) and is irrelevant to the control flow.  The history line tags a
message `User` exactly when its type is `human`, else `Jenkins Assistant`,
and the user query is stripped inside the prompt. -/
def buildPrompt (sysInstr : String) (userQuery context : String)
    (memory : List ChatMsg) : String :=
  let history :=
    if memory.isEmpty then ""
    else String.intercalate "\n"
      (memory.map (fun m =>
        (if m.role == "human" then "User" else "Jenkins Assistant")
          ++ ": " ++ m.content))
  sysInstr ++ "\n            Chat History:\n            " ++ history
    ++ "\n\n            Context (Documentation & Knowledge Base):\n            "
    ++ context ++ "\n            "
    ++ "\n            User Question:\n            " ++ pyStrip userQuery
    ++ "\n\n            Answer:\n            "

/-! ## The retrieve-judge loop (`chat_service._get_reply_simple_query_pipeline`)

The loop body makes two generation calls and runs the planned tools; these
external interactions are modelled per round `i` by an oracle:

* `ctx i`  - the assembled retrieved context of round `i`, i.e. the value of
  `_execute_search_tools(_get_agent_tool_calls(query))` in that round (the
  tool-plan machinery `get_default_tools_call` / `validate_tool_calls` and
  the registry live in `api/tools/`, outside the sources);
* `rel i`  - the raw LLM output of round `i`'s relevance call
  (`CONTEXT_RELEVANCE_PROMPT` generation), parsed by
  `extractRelevanceScore`;
* `ans p`  - `generate_answer(p)` for the final answer prompt (it traps every
  provider exception and returns a fallback string, hence total). -/
structure SimpleOracle where
  ctx : Nat → String
  rel : Nat → String
  ans : String → String

/-- Relevance score judged in evaluation number `i` (0-based). -/
def roundScore (o : SimpleOracle) (i : Nat) : Nat :=
  extractRelevanceScore (o.rel i)

/-- The `while iterations < N and relevance != 1` loop.  In the source
`iterations` starts at `-1`, so the guard `iterations < N` holds for the
first `N + 1` entries; here `fuel = N + 1 - evals` counts the remaining
entries allowed by that guard and `evals` the relevance evaluations already
performed.  Returns (evaluations performed, final relevance, last retrieved
context).  The initial context `""` models the unbound Python variable; it is
unobservable because the loop always runs at least once. -/
def simpleLoopGo (o : SimpleOracle) : Nat → Nat → Nat → String → Nat × Nat × String
  | 0, evals, r, c => (evals, r, c)
  | fuel + 1, evals, r, c =>
    if r = 1 then (evals, r, c)
    else simpleLoopGo o fuel (evals + 1) (roundScore o evals) (o.ctx evals)

/-- The retrieve-judge loop with budget `N` (`max_reformulate_iterations`),
started from `iterations = -1`, `relevance = 0`. -/
def simpleLoop (o : SimpleOracle) (N : Nat) : Nat × Nat × String :=
  simpleLoopGo o (N + 1) 0 0 ""

/-- The fixed fallback message returned when the budget is exhausted without
a relevance-1 context. -/
def fallbackMessage (query : String) : String :=
  "Unfortunately we are not able to respond to your question about "
    ++ query ++ "."

/-- `chat_service._get_reply_simple_query_pipeline`: run the loop, then
either the fallback message, or one more generation on the final prompt built
from the last retrieved context. -/
def getReplySimpleQueryPipeline (sysInstr : String) (o : SimpleOracle)
    (N : Nat) (memory : List ChatMsg) (query : String) : String :=
  let res := simpleLoop o N
  if res.2.1 ≠ 1 then fallbackMessage query
  else o.ans (buildPrompt sysInstr query res.2.2 memory)

/-! ## Decomposition and the MULTI path (`_get_sub_queries`, `_handle_query_type`) -/

/-- A Python exception escaping pipeline code, carrying its rendered
message. -/
structure PyErr where
  msg : String
deriving DecidableEq

/-- A Python literal as produced by `ast.literal_eval` on the decomposition
output.  `literal_eval` can also yield tuples, sets, dicts, floats, complex
numbers and bytes; for `_get_sub_queries` those behave either like `list`
(iterables whose elements undergo `.strip()`) or like `int` (non-iterables)
and are elided here. -/
inductive PyLit where
  | str (s : String)
  | int (n : Int)
  | bool (b : Bool)
  | noneLit
  | list (elems : List PyLit)

/-- `q.strip()` applied to the elements of a Python list, left to right: a
non-string element raises `AttributeError` (uncaught in the source). -/
def stripListElems : List PyLit → Except PyErr (List String)
  | [] => Except.ok []
  | PyLit.str s :: rest =>
    (match stripListElems rest with
     | Except.ok tail => Except.ok (pyStrip s :: tail)
     | Except.error e => Except.error e)
  | _ :: _ =>
    Except.error ⟨"AttributeError: object has no attribute strip"⟩

/-- The comprehension `[q.strip() for q in queries]` on a Python value:
iterating a non-iterable raises `TypeError` (uncaught in the source);
iterating a string yields its characters as one-character strings, each of
which is then stripped. -/
def stripComprehension : PyLit → Except PyErr (List String)
  | PyLit.list elems => stripListElems elems
  | PyLit.str s => Except.ok (s.data.map (fun c => pyStrip ⟨[c]⟩))
  | PyLit.int _ => Except.error ⟨"TypeError: object is not iterable"⟩
  | PyLit.bool _ => Except.error ⟨"TypeError: object is not iterable"⟩
  | PyLit.noneLit => Except.error ⟨"TypeError: object is not iterable"⟩

/-- `chat_service._get_sub_queries`: `parsed` is the result of
`ast.literal_eval` on the decomposition output, `none` modelling any of the
caught parse exceptions, after which `queries` defaults to the Python list
`[query]`.  The `try` covers only the `literal_eval` call; the strip
comprehension runs outside it, so a successfully parsed literal that is not
a list of strings crashes (`TypeError` / `AttributeError`) or — for a string
literal — is split into per-character sub-queries. -/
def getSubQueries (parsed : Option PyLit) (query : String) :
    Except PyErr (List String) :=
  let queries : PyLit :=
    match parsed with
    | some lit => lit
    | none => PyLit.list [PyLit.str query]
  stripComprehension queries

/-- `chat_service._assemble_response`: join with a blank-line separator. -/
def assembleResponse (answers : List String) : String :=
  String.intercalate "\n\n" answers

/-- `chat_service._handle_query_type`.  On `MULTI`, the sub-query list is
computed first (an exception escaping `_get_sub_queries` aborts the run);
each sub-query is then run through the simple pipeline in order, `o i`
supplying the oracle of the `i`-th sub-query's run, and the answers joined.
The SIMPLE path performs exactly one run, using `o 0`, and cannot raise
here. -/
def handleQueryType (sysInstr : String) (o : Nat → SimpleOracle)
    (parsed : Option PyLit) (N : Nat) (memory : List ChatMsg)
    (query : String) (queryType : QueryType) : Except PyErr String :=
  match queryType with
  | .MULTI =>
    match getSubQueries parsed query with
    | Except.error e => Except.error e
    | Except.ok subQueries =>
      Except.ok (assembleResponse
        (subQueries.enum.map
          (fun p => getReplySimpleQueryPipeline sysInstr (o p.1) N memory p.2)))
  | .SIMPLE => Except.ok (getReplySimpleQueryPipeline sysInstr (o 0) N memory query)

/-! ## Tool execution (`chat_service._execute_search_tools`) -/

/-- One entry of the parsed tool-call list: `call.get("tool")` and
`call.get("params")` (absent keys give `none`). -/
structure ToolCall (Params : Type) where
  tool : Option String
  params : Option Params

/-- A registered tool: given its params it returns output text or raises. -/
def ToolFn (Params : Type) : Type := Params → Except PyErr String

/-- Python's `str.strip()` applied to each result block, as in the source's
`f"[Result of the search tool {res['tool']}]:\n{res.get('output', '')}".strip()`. -/
def toolResultBlock (toolName output : String) : String :=
  pyStrip ("[Result of the search tool " ++ toolName ++ "]:\n" ++ output)

/-- `chat_service._execute_search_tools`: execute every planned call via the
registry and join the labeled outputs.  The loop body has no exception
handler: a raising tool (or an unregistered / missing tool name, where
`tool_fn` is `None` and calling it raises `TypeError`) propagates, aborting
the remaining calls.  `Except.error` models the propagated exception. -/
def executeSearchTools {Params : Type} (registry : String → Option (ToolFn Params)) :
    List (ToolCall Params) → Except PyErr (List (String × String))
  | [] => Except.ok []
  | call :: rest =>
    match call.tool with
    | none => Except.error ⟨"TypeError: NoneType object is not callable"⟩
    | some name =>
      match registry name with
      | none => Except.error ⟨"TypeError: NoneType object is not callable"⟩
      | some fn =>
        match call.params with
        | none => Except.error ⟨"TypeError: argument of type NoneType is not a mapping"⟩
        | some ps =>
          match fn ps with
          | Except.error e => Except.error e
          | Except.ok out =>
            match executeSearchTools registry rest with
            | Except.error e => Except.error e
            | Except.ok tail => Except.ok ((name, out) :: tail)

/-- The combined context string assembled from the executed tool results. -/
def executeSearchToolsOutput {Params : Type}
    (registry : String → Option (ToolFn Params))
    (calls : List (ToolCall Params)) : Except PyErr String :=
  match executeSearchTools registry calls with
  | Except.error e => Except.error e
  | Except.ok results =>
    Except.ok (String.intercalate "\n\n"
      (results.map (fun r => toolResultBlock r.1 r.2)))

/-! ## Association-list model of Python dicts

Python `dict`s (and the on-disk JSON objects) are modelled as association
lists with `List.lookup`; `aset` is item assignment (`d[k] = v`) and
`aremove` is key removal (`d.pop(k, None)` / file deletion).  Insertion
order is immaterial to every claim below. -/

/-- Dict item assignment `d[k] = v`. -/
def aset {α : Type} (k : String) (v : α) : List (String × α) → List (String × α)
  | [] => [(k, v)]
  | (k', v') :: t => if k' == k then (k, v) :: t else (k', v') :: aset k v t

/-- Dict key removal. -/
def aremove {α : Type} (k : String) (l : List (String × α)) : List (String × α) :=
  l.filter (fun p => p.1 != k)

/-! ## Session store state (`memory.py` + `sessionmanager.py`)

`sessions` and `userSessions` are the module-level dicts `_sessions` and
`_user_sessions` of `memory.py`; `files` and `metas` are the durable blobs
`<sid>.json` and `<sid>.meta.json` managed by `sessionmanager.py` (the
metadata JSON object is itself a string-keyed dict).  All claims below
concern sessions whose ids are well-formed UUIDs, so the UUID-format guard of
`_get_session_file_path` (which turns a malformed id into the empty path) is
not modelled.  Timestamps are abstract `Nat` clock values, stored stringified
in metadata. -/

/-- One resident entry of `_sessions`: the `ConversationBufferMemory`'s
message list, the `last_accessed` timestamp and the owning `user_id`. -/
structure SessionRec where
  messages : List ChatMsg
  lastAccessed : Nat
  userId : String
deriving DecidableEq

/-- The whole mutable state: resident maps plus durable files. -/
structure MemoryState where
  sessions : List (String × SessionRec)
  userSessions : List (String × List String)
  files : List (String × List ChatMsg)
  metas : List (String × List (String × String))
deriving DecidableEq

/-- `_user_sessions[user_id].add(session_id)` (creating the set if absent). -/
def addUserSession (userId sessionId : String)
    (us : List (String × List String)) : List (String × List String) :=
  match us.lookup userId with
  | some sids => aset userId (if sessionId ∈ sids then sids else sids ++ [sessionId]) us
  | none => aset userId [sessionId] us

/-- `sessionmanager.save_session_metadata`: writes the ownership record
`{"owner": user_id, "user_name": user_name, "created_at": ..., "last_updated": ...}`
for the session (default `user_name="User"`; `now` is the stringified wall
clock). -/
def saveSessionMetadata (sessionId userId : String) (now : Nat)
    (st : MemoryState) : MemoryState :=
  { st with
    metas := aset sessionId
      [("owner", userId), ("user_name", "User"),
       ("created_at", toString now), ("last_updated", toString now)]
      st.metas }

/-- Modelled from the spec: `load_session_metadata` is imported by
`memory.py` from `sessionmanager.py` but is absent from the sources (only
`get_session_metadata` appears there).  Per the spec's Disk Collaborator
contract (§6: the ownership-metadata `read(session_id) -> metadata | absent`
of a key-value blob store), it returns the stored metadata record unchanged,
`none` when no record exists. -/
def loadSessionMetadata (sessionId : String) (st : MemoryState) :
    Option (List (String × String)) :=
  st.metas.lookup sessionId

/-- `memory.init_session`: insert a fresh resident session (empty history,
current timestamp, the given owner), record it under the owner's session set
and persist the ownership metadata.  `sessionId` stands for the freshly
generated UUID.  Note: there is no per-owner quota check or eviction of any
kind. -/
def initSession (userId sessionId : String) (now : Nat)
    (st : MemoryState) : String × MemoryState :=
  let st1 :=
    { st with
      sessions := aset sessionId ⟨[], now, userId⟩ st.sessions
      userSessions := addUserSession userId sessionId st.userSessions }
  (sessionId, saveSessionMetadata sessionId userId now st1)

/-- `sessionmanager.load_session` (`_load_session_from_json`): the stored
message list, or `[]` when no file exists. -/
def loadSession (sessionId : String) (st : MemoryState) : List ChatMsg :=
  (st.files.lookup sessionId).getD []

/-- `memory.get_session`: resident sessions get a refreshed timestamp and
their memory returned; otherwise the store rehydrates from disk (empty or
absent durable history means `NOT_FOUND`), reading the owner from metadata
via the `"user_id"` key with default `"anonymous"`.  Returns the memory's
message list (for `none`, the session was not found). -/
def getSession (sessionId : String) (now : Nat) (st : MemoryState) :
    Option (List ChatMsg) × MemoryState :=
  match st.sessions.lookup sessionId with
  | some rec =>
    (some rec.messages,
     { st with sessions := aset sessionId { rec with lastAccessed := now } st.sessions })
  | none =>
    let history := loadSession sessionId st
    if history.isEmpty then (none, st)
    else
      let userId :=
        match loadSessionMetadata sessionId st with
        | some metadata => ((metadata.lookup "user_id").getD "anonymous")
        | none => "anonymous"
      (some history,
       { st with
         sessions := aset sessionId ⟨history, now, userId⟩ st.sessions
         userSessions := addUserSession userId sessionId st.userSessions })

/-- `sessionmanager._append_message_to_json` (public `append_message`):
persists the messages as a full snapshot — but only when the session file
already exists on disk; when the file is absent the write is silently
skipped. -/
def appendMessageToJson (sessionId : String) (messages : List ChatMsg)
    (st : MemoryState) : MemoryState :=
  match st.files.lookup sessionId with
  | some _ => { st with files := aset sessionId messages st.files }
  | none => st

/-- `memory.persist_session`: fetch the session (possibly rehydrating it)
and hand its current message list to `append_message`. -/
def persistSession (sessionId : String) (now : Nat) (st : MemoryState) :
    MemoryState :=
  match getSession sessionId now st with
  | (some messages, st1) => appendMessageToJson sessionId messages st1
  | (none, st1) => st1

/-- `sessionmanager._delete_session` (public `delete_session_file`): removes
the durable history file and the metadata file; returns whether the history
file existed. -/
def deleteSessionFile (sessionId : String) (st : MemoryState) :
    Bool × MemoryState :=
  let deleted := (st.files.lookup sessionId).isSome
  (deleted,
   { st with
     files := aremove sessionId st.files
     metas := aremove sessionId st.metas })

/-- `memory.delete_session` for a (string) session id: pop the resident
entry, drop the id from the owner's session set (removing an emptied set —
guarded by Python's truthiness test on `user_id`, skipped for the empty
string), and delete the durable record only when a resident entry was
removed.  Returns whether the resident entry existed.  (The source's
`session_id is None` early return lies outside the string domain.) -/
def deleteSession (sessionId : String) (st : MemoryState) :
    Bool × MemoryState :=
  let userId? :=
    match st.sessions.lookup sessionId with
    | some rec => some rec.userId
    | none => none
  let inMemoryDeleted := (st.sessions.lookup sessionId).isSome
  let st1 := { st with sessions := aremove sessionId st.sessions }
  let st2 :=
    match userId? with
    | some userId =>
      if userId ≠ "" then
        match st1.userSessions.lookup userId with
        | some sids =>
          let sids' := sids.filter (fun s => s != sessionId)
          if sids'.isEmpty then
            { st1 with userSessions := aremove userId st1.userSessions }
          else
            { st1 with userSessions := aset userId sids' st1.userSessions }
        | none => st1
      else st1
    | none => st1
  if inMemoryDeleted then
    (true, (deleteSessionFile sessionId st2).2)
  else
    (false, st2)

/-- `memory.session_exists`: membership in the resident map only. -/
def sessionExists (sessionId : String) (st : MemoryState) : Bool :=
  (st.sessions.lookup sessionId).isSome

/-- `memory.validate_session_owner`: the in-memory owner→sessions map is
consulted first, then the resident record, then the durable metadata —
where the stored record is read via the `"user_id"` key (default
`"anonymous"`), although `save_session_metadata` stores the owner under the
`"owner"` key. -/
def validateSessionOwner (sessionId userId : String) (st : MemoryState) : Bool :=
  let inUserMap :=
    match st.userSessions.lookup userId with
    | some sids => sids.contains sessionId
    | none => false
  if inUserMap then true
  else
    match st.sessions.lookup sessionId with
    | some rec => rec.userId == userId
    | none =>
      match loadSessionMetadata sessionId st with
      | some metadata => ((metadata.lookup "user_id").getD "anonymous") == userId
      | none => false

/-! ## The message endpoint guard (`routes/chatbot.py::chatbot_reply`) -/

/-- Outcome of the endpoint's session guard. -/
inductive RouteResult where
  | notFound
  | handled
deriving DecidableEq

/-- The session guard of `POST /sessions/{session_id}/message`: a 404
`"Session not found."` is raised when `session_exists` is false; otherwise
the request proceeds to `get_chatbot_reply` (which elsewhere looks the
session up via `get_session`). -/
def chatbotReplyRoute (sessionId : String) (st : MemoryState) : RouteResult :=
  if sessionExists sessionId st then .handled else .notFound

/-! ## History trimming (`context_manager.py`)

Pinned (system) messages are recognised by `isinstance(msg, SystemMessage)`;
here a message is pinned when its `role` is `"system"`.  The running total is
a Python `int`, modelled as `Int`. -/

/-- Is the message a pinned (LangChain `SystemMessage`) message? -/
def isSystemMsg (m : ChatMsg) : Bool := m.role == "system"

/-- `context_manager.estimate_token_count`: `len(text) // 4`. -/
def estimateTokenCount (text : String) : Nat := text.length / 4

/-- The `while len(trimmed) > 1 and total_tokens > max_tokens` loop: pop the
oldest conversational message and subtract its individual estimate from the
running total. -/
def trimLoop (maxTokens : Int) : List ChatMsg → Int → List ChatMsg
  | [], _ => []
  | [m], _ => [m]
  | m :: m' :: rest, total =>
    if total > maxTokens then
      trimLoop maxTokens (m' :: rest) (total - (estimateTokenCount m.content : Int))
    else m :: m' :: rest

/-- `context_manager.enforce_context_limit`: partition into system and
conversational messages; the initial total is the estimate of the
*concatenated* conversational text (`msg.content or ""` — contents are
strings here, so the `or ""` is the identity); within budget returns the
input unchanged, otherwise the system messages followed by the trimmed
conversational tail. -/
def enforceContextLimit (messages : List ChatMsg) (maxTokens : Int) : List ChatMsg :=
  if messages.isEmpty then []
  else
    let systemMsgs := messages.filter (fun m => isSystemMsg m)
    let conversation := messages.filter (fun m => !isSystemMsg m)
    if conversation.isEmpty then systemMsgs
    else
      let totalText := String.join (conversation.map (fun m => m.content))
      let totalTokens : Int := (estimateTokenCount totalText : Int)
      if totalTokens ≤ maxTokens then messages
      else systemMsgs ++ trimLoop maxTokens conversation totalTokens

/-- Following the spec's words (for comparison with the code): "remove
conversational messages from the oldest end, recomputing the running total
after each removal, stopping as soon as the remainder fits or only one
conversational message remains" — i.e. the cost of the *remaining* suffix is
recomputed (as the estimate of its concatenated text, the notion of cost the
code itself uses for the entry check) after every removal. -/
def trimLoopSpec (maxTokens : Int) : List ChatMsg → List ChatMsg
  | [] => []
  | [m] => [m]
  | m :: m' :: rest =>
    if (estimateTokenCount (String.join ((m :: m' :: rest).map (fun x => x.content))) : Int)
        > maxTokens then
      trimLoopSpec maxTokens (m' :: rest)
    else m :: m' :: rest

/-! ## Association-list lemmas -/

theorem beqF {a b : String} (h : a ≠ b) : (a == b) = false :=
  beq_eq_false_iff_ne.mpr h

theorem beqT {a b : String} (h : a = b) : (a == b) = true := beq_iff_eq.mpr h

theorem aremove_cons {α : Type} (k k0 : String) (v0 : α) (t : List (String × α)) :
    aremove k ((k0, v0) :: t)
      = if k0 = k then aremove k t else (k0, v0) :: aremove k t := by
  by_cases h : k0 = k <;> simp [aremove, List.filter_cons, h]

theorem lookup_cons {α : Type} (a k : String) (b : α) (t : List (String × α)) :
    List.lookup a ((k, b) :: t) = if a = k then some b else List.lookup a t := by
  by_cases h : a = k <;> simp [List.lookup, beqT, beqF, h]

theorem lookup_aset_self {α : Type} (k : String) (v : α) (l : List (String × α)) :
    List.lookup k (aset k v l) = some v := by
  induction l with
  | nil => simp [aset, lookup_cons]
  | cons p t ih =>
    obtain ⟨k', v'⟩ := p
    by_cases h : k' = k
    · simp [aset, beqT h, lookup_cons]
    · simp [aset, beqF h, lookup_cons, Ne.symm h, ih]

theorem lookup_aset_ne {α : Type} (k k' : String) (v : α) (l : List (String × α))
    (h : k' ≠ k) : List.lookup k' (aset k v l) = List.lookup k' l := by
  induction l with
  | nil => simp [aset, lookup_cons, h]
  | cons p t ih =>
    obtain ⟨k0, v0⟩ := p
    by_cases h0 : k0 = k
    · subst h0
      simp [aset, lookup_cons, h]
    · by_cases h1 : k' = k0 <;> simp [aset, beqF h0, lookup_cons, h, h1, ih]

theorem lookup_aremove_self {α : Type} (k : String) (l : List (String × α)) :
    List.lookup k (aremove k l) = none := by
  induction l with
  | nil => simp [aremove]
  | cons p t ih =>
    obtain ⟨k0, v0⟩ := p
    by_cases h0 : k0 = k
    · simp [aremove_cons, h0, ih]
    · simp [aremove_cons, lookup_cons, h0, Ne.symm h0, ih]

theorem lookup_aremove_ne {α : Type} (k k' : String) (l : List (String × α))
    (h : k' ≠ k) : List.lookup k' (aremove k l) = List.lookup k' l := by
  induction l with
  | nil => simp [aremove]
  | cons p t ih =>
    obtain ⟨k0, v0⟩ := p
    by_cases h0 : k0 = k
    · subst h0
      simp [aremove_cons, lookup_cons, h, ih]
    · by_cases h1 : k' = k0 <;> simp [aremove_cons, lookup_cons, h0, h1, ih]

theorem aremove_eq_of_lookup_none {α : Type} (k : String) (l : List (String × α))
    (h : List.lookup k l = none) : aremove k l = l := by
  induction l with
  | nil => rfl
  | cons p t ih =>
    obtain ⟨k0, v0⟩ := p
    rw [lookup_cons] at h
    by_cases h0 : k0 = k
    · rw [if_pos h0.symm] at h
      exact absurd h (by simp)
    · rw [if_neg (Ne.symm h0)] at h
      simp [aremove_cons, h0, ih h]

/-! ## Lemmas about the retrieve-judge loop (claim C1) -/

theorem simpleLoopGo_evals_le (o : SimpleOracle) (fuel : Nat) :
    ∀ evals r c, evals ≤ (simpleLoopGo o fuel evals r c).1 ∧
      (simpleLoopGo o fuel evals r c).1 ≤ evals + fuel := by
  induction fuel with
  | zero => intro evals r c; simp [simpleLoopGo]
  | succ n ih =>
    intro evals r c
    rw [simpleLoopGo]
    by_cases h : r = 1
    · simp [h]
    · rw [if_neg h]
      have := ih (evals + 1) (roundScore o evals) (o.ctx evals)
      omega

theorem simpleLoopGo_of_rel_one (o : SimpleOracle) (fuel : Nat) (evals : Nat)
    (c : String) : simpleLoopGo o fuel evals 1 c = (evals, 1, c) := by
  cases fuel with
  | zero => rfl
  | succ n => rw [simpleLoopGo]; simp

theorem simpleLoopGo_all_fail (o : SimpleOracle) (fuel : Nat) :
    ∀ evals r c, r ≠ 1 →
      (∀ i, evals ≤ i → i < evals + fuel → roundScore o i ≠ 1) →
      (simpleLoopGo o fuel evals r c).1 = evals + fuel ∧
        (simpleLoopGo o fuel evals r c).2.1 ≠ 1 := by
  induction fuel with
  | zero => intro evals r c hr _; simp [simpleLoopGo, hr]
  | succ n ih =>
    intro evals r c hr hall
    rw [simpleLoopGo, if_neg hr]
    have hev : roundScore o evals ≠ 1 := hall evals (le_refl _) (by omega)
    have := ih (evals + 1) (roundScore o evals) (o.ctx evals) hev
      (fun i h1 h2 => hall i (by omega) (by omega))
    exact ⟨by omega, this.2⟩


theorem simpleLoopGo_first_success (o : SimpleOracle) (fuel : Nat) :
    ∀ evals r c (j : Nat), r ≠ 1 → evals ≤ j → j < evals + fuel →
      roundScore o j = 1 → (∀ i, evals ≤ i → i < j → roundScore o i ≠ 1) →
      simpleLoopGo o fuel evals r c = (j + 1, 1, o.ctx j) := by
  induction fuel with
  | zero => intro evals r c j _ h1 h2 _ _; omega
  | succ n ih =>
    intro evals r c j hr hle hlt hj hbefore
    rw [simpleLoopGo, if_neg hr]
    by_cases he : evals = j
    · subst he
      rw [hj, simpleLoopGo_of_rel_one]
    · have hlt' : evals < j := lt_of_le_of_ne hle he
      have hfail : roundScore o evals ≠ 1 := hbefore evals (le_refl _) hlt'
      exact ih (evals + 1) (roundScore o evals) (o.ctx evals) j hfail
        (by omega) (by omega) hj (fun i h1 h2 => hbefore i (by omega) h2)

/-- **C1.** For every iteration budget `N ≥ 0` the retrieve-judge loop of the
simple-query pipeline performs at least `1` and at most `N + 1` relevance
evaluations; if the first evaluation scoring `1` is evaluation `j` (0-based,
`j ≤ N`), the loop stops right after it (`j + 1` evaluations) and the
pipeline returns the answer generated from the final prompt; if every
evaluation scores other than `1`, the loop performs exactly `N + 1`
evaluations and the pipeline returns the fixed fallback message naming the
query. -/
theorem retrieve_judge_loop_budget (o : SimpleOracle) (N : Nat) (sysInstr : String)
    (memory : List ChatMsg) (query : String) :
    (1 ≤ (simpleLoop o N).1 ∧ (simpleLoop o N).1 ≤ N + 1) ∧
    (∀ j, j ≤ N → roundScore o j = 1 → (∀ i, i < j → roundScore o i ≠ 1) →
      (simpleLoop o N).1 = j + 1 ∧
      getReplySimpleQueryPipeline sysInstr o N memory query
        = o.ans (buildPrompt sysInstr query (o.ctx j) memory)) ∧
    ((∀ i, i ≤ N → roundScore o i ≠ 1) →
      (simpleLoop o N).1 = N + 1 ∧
      getReplySimpleQueryPipeline sysInstr o N memory query
        = fallbackMessage query) := by
  refine ⟨⟨?_, ?_⟩, ?_, ?_⟩
  · have hstep : simpleLoop o N = simpleLoopGo o N 1 (roundScore o 0) (o.ctx 0) := by
      rw [simpleLoop, simpleLoopGo]
      simp
    have hle := simpleLoopGo_evals_le o N 1 (roundScore o 0) (o.ctx 0)
    rw [hstep]
    omega
  · have hle := simpleLoopGo_evals_le o (N + 1) 0 0 ""
    simpa [simpleLoop] using hle.2
  · intro j hj hscore hbefore
    have hrun := simpleLoopGo_first_success o (N + 1) 0 0 "" j (by decide)
      (Nat.zero_le _) (by omega) hscore (fun i _ h2 => hbefore i h2)
    have hloop : simpleLoop o N = (j + 1, 1, o.ctx j) := by
      rw [simpleLoop, hrun]
    refine ⟨by rw [hloop], ?_⟩
    rw [getReplySimpleQueryPipeline]
    rw [hloop]
    simp
  · intro hall
    have hrun := simpleLoopGo_all_fail o (N + 1) 0 0 "" (by decide)
      (fun i _ h2 => hall i (by omega))
    refine ⟨by simpa [simpleLoop] using hrun.1, ?_⟩
    have hne : (simpleLoop o N).2.1 ≠ 1 := by simpa [simpleLoop] using hrun.2
    rw [getReplySimpleQueryPipeline, if_pos hne]

/-- Oracle for the C1 witness: relevance scores `0` then `1`, constant
answer. -/
def c1WitnessOracle : SimpleOracle where
  ctx := fun _ => "ctx"
  rel := fun i => if i = 1 then "Label: 1" else "Label: 0"
  ans := fun _ => "ANSWER"

/-- Witness for C1: with `N = 1` and scores `0, 1` the loop performs exactly
two evaluations and the generated answer (not the fallback) is returned. -/
theorem retrieve_judge_loop_budget_witness :
    (simpleLoop c1WitnessOracle 1).1 = 2 ∧
    getReplySimpleQueryPipeline "SYS" c1WitnessOracle 1 [] "q" = "ANSWER" := by
  have h := (retrieve_judge_loop_budget c1WitnessOracle 1 "SYS" [] "q").2.1 1
    (by decide) (by decide)
    (fun i hi => by
      have h0 : i = 0 := by omega
      subst h0
      decide)
  exact ⟨h.1, h.2⟩

/-! ## Claim C5: decomposition fallback vs. the SIMPLE path -/

theorem intercalate_singleton (s a : String) : String.intercalate s [a] = a := by
  simp [String.intercalate, String.intercalate.go]

theorem stripListElems_has_nonstring (elems : List PyLit)
    (h : ∃ lit, lit ∈ elems ∧ ∀ t, lit ≠ PyLit.str t) :
    stripListElems elems
      = Except.error ⟨"AttributeError: object has no attribute strip"⟩ := by
  induction elems with
  | nil => obtain ⟨lit, hmem, _⟩ := h; exact absurd hmem (List.not_mem_nil lit)
  | cons head rest ih =>
    obtain ⟨lit, hmem, hns⟩ := h
    cases head with
    | str t =>
      have hrest : lit ∈ rest := by
        rcases List.mem_cons.mp hmem with heq | hr
        · exact absurd heq (hns t)
        · exact hr
      rw [stripListElems, ih ⟨lit, hrest, hns⟩]
    | int n => rfl
    | bool b => rfl
    | noneLit => rfl
    | list l => rfl

/-- **C5 (amended).** Only when the decomposition output makes
`ast.literal_eval` raise (`parsed = none`) does the MULTI path degrade — to
the one-element sub-query list containing the original query *stripped of
surrounding whitespace* — and its result is then exactly the SIMPLE path run
on that stripped query (so it coincides with the SIMPLE path on the original
query precisely when the query equals its own strip; the loop itself does
not depend on the query in this embedding).  A decomposition output that
parses to a literal that is not a list of strings does *not* degrade: a
non-iterable literal (integer, boolean, `None`) raises an uncaught
`TypeError` out of the run, a list containing any non-string element raises
an uncaught `AttributeError`, and a string literal is split into its
characters as per-character sub-queries. -/
theorem decomposition_fallback_strips (sysInstr : String) (o : Nat → SimpleOracle)
    (N : Nat) (memory : List ChatMsg) (query : String) :
    (handleQueryType sysInstr o none N memory query .MULTI
      = Except.ok
          (getReplySimpleQueryPipeline sysInstr (o 0) N memory (pyStrip query))) ∧
    (∀ n : Int, handleQueryType sysInstr o (some (PyLit.int n)) N memory query .MULTI
      = Except.error ⟨"TypeError: object is not iterable"⟩) ∧
    (∀ b : Bool, handleQueryType sysInstr o (some (PyLit.bool b)) N memory query .MULTI
      = Except.error ⟨"TypeError: object is not iterable"⟩) ∧
    (handleQueryType sysInstr o (some PyLit.noneLit) N memory query .MULTI
      = Except.error ⟨"TypeError: object is not iterable"⟩) ∧
    (∀ elems, (∃ lit, lit ∈ elems ∧ ∀ t, lit ≠ PyLit.str t) →
      handleQueryType sysInstr o (some (PyLit.list elems)) N memory query .MULTI
        = Except.error ⟨"AttributeError: object has no attribute strip"⟩) ∧
    (∀ t, getSubQueries (some (PyLit.str t)) query
      = Except.ok (t.data.map (fun c => pyStrip ⟨[c]⟩))) := by
  refine ⟨?_, fun n => rfl, fun b => rfl, rfl, ?_, fun t => rfl⟩
  · show Except.ok (assembleResponse
      [getReplySimpleQueryPipeline sysInstr (o 0) N memory (pyStrip query)]) = _
    exact congrArg Except.ok (intercalate_singleton _ _)
  · intro elems h
    simp only [handleQueryType, getSubQueries, stripComprehension,
      stripListElems_has_nonstring elems h]

/-- Oracle for the C5 scenario: every relevance response is unparseable, so
every run ends in the fallback message. -/
def c5Oracle : SimpleOracle where
  ctx := fun _ => "ctx"
  rel := fun _ => "no label here"
  ans := fun p => p

/-- **C5 (counterexample).** The claim as stated fails at concrete inputs in
two distinct ways.  With an unparseable decomposition output and the
whitespace-padded query `" q "`, the MULTI fallback strips the sub-query and
its fallback message names `"q"`, while the SIMPLE path on the same query
names `" q "`.  And for the parseable decomposition outputs `"42"` and
`"[1, 2]"` — which fail to parse *as a literal list of strings* — the MULTI
path raises an uncaught exception instead of behaving like the SIMPLE path
(which would return a fallback answer), while `"'ab'"` silently becomes the
per-character sub-queries `["a", "b"]`. -/
theorem decomposition_fallback_counterexample :
    handleQueryType "SYS" (fun _ => c5Oracle) none 0 [] " q " .MULTI
      ≠ Except.ok (getReplySimpleQueryPipeline "SYS" c5Oracle 0 [] " q ") ∧
    handleQueryType "SYS" (fun _ => c5Oracle) (some (PyLit.int 42)) 0 [] "q" .MULTI
      = Except.error ⟨"TypeError: object is not iterable"⟩ ∧
    handleQueryType "SYS" (fun _ => c5Oracle)
        (some (PyLit.list [PyLit.int 1, PyLit.int 2])) 0 [] "q" .MULTI
      = Except.error ⟨"AttributeError: object has no attribute strip"⟩ ∧
    getSubQueries (some (PyLit.str "ab")) "q" = Except.ok ["a", "b"] := by
  refine ⟨?_, rfl, rfl, rfl⟩
  intro h
  exact absurd (Except.ok.inj h) (by decide)

/-- Witness for the amended C5 theorem: the parse-failure clause at the
padded query `" q "`, and the non-string-element clause at the concrete
list literal `[3]`. -/
theorem decomposition_fallback_strips_witness :
    (handleQueryType "SYS" (fun _ => c5Oracle) none 1 [] " q " .MULTI
      = Except.ok
          (getReplySimpleQueryPipeline "SYS" c5Oracle 1 [] (pyStrip " q "))) ∧
    handleQueryType "SYS" (fun _ => c5Oracle)
        (some (PyLit.list [PyLit.int 3])) 1 [] "q" .MULTI
      = Except.error ⟨"AttributeError: object has no attribute strip"⟩ := by
  refine ⟨(decomposition_fallback_strips "SYS" (fun _ => c5Oracle) 1 [] " q ").1, ?_⟩
  exact (decomposition_fallback_strips "SYS" (fun _ => c5Oracle) 1 [] "q").2.2.2.2.1
    [PyLit.int 3]
    ⟨PyLit.int 3, List.mem_singleton.mpr rfl, fun t ht => PyLit.noConfusion ht⟩

/-! ## Claim C6: trimming invariants -/

/-- The individual estimated cost of one message, as an integer. -/
def estI (m : ChatMsg) : Int := (estimateTokenCount m.content : Int)

/-- Sum of the individual message estimates (the quantity the code's running
total subtracts, message by message). -/
def sumEst (l : List ChatMsg) : Int := (l.map estI).sum

theorem sumEst_nil : sumEst [] = 0 := rfl

theorem sumEst_take_succ_cons (m : ChatMsg) (l : List ChatMsg) (j : Nat) :
    sumEst ((m :: l).take (j + 1)) = estI m + sumEst (l.take j) := by
  rw [List.take_succ_cons]
  simp [sumEst]

/-- What `trimLoop` computes: it drops some prefix of length `d`; every strict
stage before `d` still had a running total over budget, and at `d` either the
running total fits or a single message remains. -/
theorem trimLoop_characterization (k : Int) :
    ∀ (conv : List ChatMsg) (total : Int), conv ≠ [] →
      ∃ d, d < conv.length ∧ trimLoop k conv total = conv.drop d ∧
        (∀ j, j < d → total - sumEst (conv.take j) > k) ∧
        (total - sumEst (conv.take d) ≤ k ∨ d = conv.length - 1) := by
  intro conv
  induction conv with
  | nil => intro total h; exact absurd rfl h
  | cons m tail ih =>
    intro total _
    cases tail with
    | nil =>
      refine ⟨0, by simp, rfl, by omega, Or.inr rfl⟩
    | cons m2 rest =>
      by_cases hov : total > k
      · obtain ⟨d, hdlen, heq, hlt, hstop⟩ :=
          ih (total - estI m) (by simp)
        refine ⟨d + 1, by simpa using hdlen, ?_, ?_, ?_⟩
        · rw [trimLoop, if_pos hov]
          simpa using heq
        · intro j hj
          cases j with
          | zero => simpa [sumEst_nil] using hov
          | succ j2 =>
            have := hlt j2 (by omega)
            rw [sumEst_take_succ_cons]
            omega
        · rw [sumEst_take_succ_cons]
          rcases hstop with h | h
          · exact Or.inl (by omega)
          · exact Or.inr (by simp at h ⊢; omega)
      · refine ⟨0, by simp, ?_, by omega, Or.inl (by simpa [sumEst_nil] using hov)⟩
        rw [trimLoop, if_neg hov, List.drop_zero]

/-- Which messages of `messages` are conversational. -/
def conversationOf (messages : List ChatMsg) : List ChatMsg :=
  messages.filter (fun m => !isSystemMsg m)

/-- Which messages of `messages` are pinned (system). -/
def systemOf (messages : List ChatMsg) : List ChatMsg :=
  messages.filter (fun m => isSystemMsg m)

/-- The code's initial running total: the estimate of the concatenated
conversational text. -/
def initialTotal (messages : List ChatMsg) : Int :=
  (estimateTokenCount (String.join ((conversationOf messages).map (fun m => m.content))) : Int)

theorem enforceContextLimit_shape (messages : List ChatMsg) (maxTokens : Int) :
    (enforceContextLimit messages maxTokens = messages ∧
      initialTotal messages ≤ maxTokens) ∨
    (enforceContextLimit messages maxTokens = systemOf messages ∧
      conversationOf messages = []) ∨
    (∃ d, d < (conversationOf messages).length ∧
      enforceContextLimit messages maxTokens
        = systemOf messages ++ (conversationOf messages).drop d ∧
      initialTotal messages > maxTokens ∧
      (∀ j, j < d →
        initialTotal messages - sumEst ((conversationOf messages).take j) > maxTokens) ∧
      (initialTotal messages - sumEst ((conversationOf messages).take d) ≤ maxTokens ∨
        d = (conversationOf messages).length - 1)) := by
  simp only [enforceContextLimit, systemOf, conversationOf, initialTotal]
  split
  · next h1 =>
    have hmm : messages = [] := by simpa using h1
    subst hmm
    exact Or.inr (Or.inl ⟨rfl, rfl⟩)
  · next h1 =>
    split
    · next h2 => exact Or.inr (Or.inl ⟨rfl, by simpa using h2⟩)
    · next h2 =>
      split
      · next h3 => exact Or.inl ⟨rfl, h3⟩
      · next h3 =>
        have hne : messages.filter (fun m => !isSystemMsg m) ≠ [] := by
          simpa using h2
        obtain ⟨d, hdlen, heq, hlt, hstop⟩ :=
          trimLoop_characterization maxTokens
            (messages.filter (fun m => !isSystemMsg m)) _ hne
        exact Or.inr (Or.inr ⟨d, hdlen, by rw [heq], by omega, hlt, hstop⟩)


theorem filter_conv_systemOf (messages : List ChatMsg) :
    (systemOf messages).filter (fun m => !isSystemMsg m) = [] := by
  refine List.filter_eq_nil_iff.mpr ?_
  intro a ha
  have := List.of_mem_filter ha
  simp_all

theorem filter_sys_systemOf (messages : List ChatMsg) :
    (systemOf messages).filter (fun m => isSystemMsg m) = systemOf messages := by
  refine List.filter_eq_self.mpr ?_
  intro a ha
  exact List.of_mem_filter ha

theorem filter_conv_of_subset {l : List ChatMsg} {messages : List ChatMsg}
    (h : l ⊆ conversationOf messages) :
    l.filter (fun m => !isSystemMsg m) = l ∧
      l.filter (fun m => isSystemMsg m) = [] := by
  have hmem : ∀ a ∈ l, (!isSystemMsg a) = true := by
    intro a ha
    have hin : a ∈ messages.filter (fun m => !isSystemMsg m) := h ha
    have h2 := List.of_mem_filter hin
    exact h2
  constructor
  · exact List.filter_eq_self.mpr hmem
  · refine List.filter_eq_nil_iff.mpr ?_
    intro a ha
    have := hmem a ha
    simp_all

/-- **C6 (amended).** For every history and budget: (1) the output's pinned
(system) messages are exactly the input's, in original order; (2) the
retained conversational messages form a contiguous tail of the original
conversational sequence; (3) if any conversational message exists, at least
one is retained (a single over-budget message is never dropped); (4) when
the initial estimate is over budget, the number `d` of removed conversational
messages is minimal with respect to the code's *running total* — the initial
estimate of the concatenated conversational text minus the individual
estimates of the removed messages: every stage before `d` was still over
budget, and at `d` the running total fits or a single message remains.
(Because the per-message estimates are floored separately, this running
total can exceed the recomputed estimate of the remainder, so trimming may
remove more than the spec's "stop as soon as the remainder fits" requires —
see the counterexample.) -/
theorem enforce_context_limit_amended (messages : List ChatMsg) (maxTokens : Int) :
    ((enforceContextLimit messages maxTokens).filter (fun m => isSystemMsg m)
        = systemOf messages) ∧
    ((enforceContextLimit messages maxTokens).filter (fun m => !isSystemMsg m)
        <:+ conversationOf messages) ∧
    (conversationOf messages ≠ [] →
      (enforceContextLimit messages maxTokens).filter (fun m => !isSystemMsg m) ≠ []) ∧
    (conversationOf messages ≠ [] → initialTotal messages > maxTokens →
      ∃ d, d < (conversationOf messages).length ∧
        (enforceContextLimit messages maxTokens).filter (fun m => !isSystemMsg m)
          = (conversationOf messages).drop d ∧
        (∀ j, j < d →
          initialTotal messages - sumEst ((conversationOf messages).take j) > maxTokens) ∧
        (initialTotal messages - sumEst ((conversationOf messages).take d) ≤ maxTokens ∨
          d = (conversationOf messages).length - 1)) := by
  rcases enforceContextLimit_shape messages maxTokens with
    ⟨heq, hle⟩ | ⟨heq, hconv⟩ | ⟨d, hdlen, heq, hov, hlt, hstop⟩
  · refine ⟨by rw [heq]; rfl, by rw [heq]; exact List.suffix_refl _, ?_, ?_⟩
    · intro h; rw [heq]; exact h
    · intro _ hgt; omega
  · refine ⟨?_, ?_, ?_, ?_⟩
    · rw [heq, filter_sys_systemOf]
    · rw [heq, filter_conv_systemOf, hconv]
    · intro h; exact absurd hconv h
    · intro h; exact absurd hconv h
  · have hsub : (conversationOf messages).drop d ⊆ conversationOf messages :=
      List.drop_subset _ _
    obtain ⟨hc1, hc2⟩ := filter_conv_of_subset hsub
    have hfc : (enforceContextLimit messages maxTokens).filter (fun m => !isSystemMsg m)
        = (conversationOf messages).drop d := by
      rw [heq, List.filter_append, filter_conv_systemOf, hc1, List.nil_append]
    refine ⟨?_, ?_, ?_, ?_⟩
    · rw [heq, List.filter_append, filter_sys_systemOf, hc2, List.append_nil]
    · rw [hfc]; exact List.drop_suffix _ _
    · intro _
      rw [hfc]
      intro habs
      rw [List.drop_eq_nil_iff] at habs
      omega
    · intro _ _
      exact ⟨d, hdlen, hfc, hlt, hstop⟩

/-- **C6 (counterexample).** Three conversational messages of length 3 with
budget 1: the code retains only the last message, although the remainder
after the first removal (`"bbb"`, `"ccc"`, concatenated estimate
`6 / 4 = 1 ≤ 1`) already fit the budget, so removal did not stop "as soon
as the remainder fits"; the spec-following trimmer keeps the last two. -/
theorem enforce_context_limit_counterexample :
    enforceContextLimit
        [⟨"human", "aaa"⟩, ⟨"ai", "bbb"⟩, ⟨"human", "ccc"⟩] 1
      = [⟨"human", "ccc"⟩] ∧
    (estimateTokenCount (String.join ["bbb", "ccc"]) : Int) ≤ 1 ∧
    trimLoopSpec 1 [⟨"ai", "bbb"⟩, ⟨"human", "ccc"⟩]
      = [⟨"ai", "bbb"⟩, ⟨"human", "ccc"⟩] := by
  refine ⟨by decide, by decide, by decide⟩

/-- Witness for the amended C6 theorem at a concrete over-budget history. -/
theorem enforce_context_limit_amended_witness :
    ((enforceContextLimit
        [⟨"system", "s"⟩, ⟨"human", "aaaa"⟩, ⟨"ai", "bbbb"⟩] 0).filter
          (fun m => isSystemMsg m)
        = systemOf [⟨"system", "s"⟩, ⟨"human", "aaaa"⟩, ⟨"ai", "bbbb"⟩]) ∧
    ((enforceContextLimit
        [⟨"system", "s"⟩, ⟨"human", "aaaa"⟩, ⟨"ai", "bbbb"⟩] 0).filter
          (fun m => !isSystemMsg m) ≠ []) := by
  have h := enforce_context_limit_amended
    [⟨"system", "s"⟩, ⟨"human", "aaaa"⟩, ⟨"ai", "bbbb"⟩] 0
  exact ⟨h.1, h.2.2.1 (by decide)⟩


/-! ## Claim C7: classification routing -/

theorem scan_some_cases (s : List Char) :
    ∀ (prev : Bool) (t : String), scanQueryTypeTok prev s = some t →
      (t = "SIMPLE" ∧ containsWordTokenAux simpleTok prev s = true) ∨
      (t = "MULTI" ∧ containsWordTokenAux multiTok prev s = true) := by
  induction s with
  | nil => intro prev t h; simp [scanQueryTypeTok] at h
  | cons c cs ih =>
    intro prev t h
    rw [scanQueryTypeTok] at h
    by_cases hA : (!prev && wordMatchAt simpleTok (c :: cs)) = true
    · rw [if_pos hA] at h
      refine Or.inl ⟨(Option.some_inj.mp h).symm, ?_⟩
      rw [containsWordTokenAux, hA, Bool.true_or]
    · rw [if_neg hA] at h
      by_cases hB : (!prev && wordMatchAt multiTok (c :: cs)) = true
      · rw [if_pos hB] at h
        refine Or.inr ⟨(Option.some_inj.mp h).symm, ?_⟩
        rw [containsWordTokenAux, hB, Bool.true_or]
      · rw [if_neg hB] at h
        rcases ih (isWordChar c) t h with ⟨ht, hc⟩ | ⟨ht, hc⟩
        · refine Or.inl ⟨ht, ?_⟩
          rw [containsWordTokenAux, hc, Bool.or_true]
        · refine Or.inr ⟨ht, ?_⟩
          rw [containsWordTokenAux, hc, Bool.or_true]

theorem scan_none_not_contains (s : List Char) :
    ∀ (prev : Bool), scanQueryTypeTok prev s = none →
      containsWordTokenAux simpleTok prev s = false ∧
      containsWordTokenAux multiTok prev s = false := by
  induction s with
  | nil => intro prev _; exact ⟨rfl, rfl⟩
  | cons c cs ih =>
    intro prev h
    rw [scanQueryTypeTok] at h
    by_cases hA : (!prev && wordMatchAt simpleTok (c :: cs)) = true
    · rw [if_pos hA] at h; exact absurd h (by simp)
    · rw [if_neg hA] at h
      by_cases hB : (!prev && wordMatchAt multiTok (c :: cs)) = true
      · rw [if_pos hB] at h; exact absurd h (by simp)
      · rw [if_neg hB] at h
        obtain ⟨h1, h2⟩ := ih (isWordChar c) h
        constructor
        · rw [containsWordTokenAux, h1,
            Bool.eq_false_iff.mpr hA, Bool.false_or]
        · rw [containsWordTokenAux, h2,
            Bool.eq_false_iff.mpr hB, Bool.false_or]

/-- **C7.** Query classification on a raw classifier output: when the output
contains no word-bounded, case-insensitive occurrence of `SIMPLE` or `MULTI`
the route is `MULTI`; when it contains exactly one of the two tokens
the route is the corresponding type. -/
theorem classification_default_multi (response : String) :
    (containsWordToken simpleTok response = false →
      containsWordToken multiTok response = false →
      routeQueryType response = .MULTI) ∧
    (containsWordToken simpleTok response = true →
      containsWordToken multiTok response = false →
      routeQueryType response = .SIMPLE) ∧
    (containsWordToken multiTok response = true →
      containsWordToken simpleTok response = false →
      routeQueryType response = .MULTI) := by
  refine ⟨?_, ?_, ?_⟩
  · intro h1 h2
    rw [routeQueryType, extractQueryType]
    cases hscan : scanQueryTypeTok false response.data with
    | none => rfl
    | some t =>
      rcases scan_some_cases response.data false t hscan with ⟨_, hc⟩ | ⟨_, hc⟩
      · rw [containsWordToken] at h1; rw [h1] at hc; exact absurd hc (by simp)
      · rw [containsWordToken] at h2; rw [h2] at hc; exact absurd hc (by simp)
  · intro h1 h2
    rw [routeQueryType, extractQueryType]
    cases hscan : scanQueryTypeTok false response.data with
    | none =>
      obtain ⟨hs, _⟩ := scan_none_not_contains response.data false hscan
      rw [containsWordToken] at h1; rw [h1] at hs; exact absurd hs (by simp)
    | some t =>
      rcases scan_some_cases response.data false t hscan with ⟨ht, _⟩ | ⟨ht, hc⟩
      · subst ht; rfl
      · rw [containsWordToken] at h2; rw [h2] at hc; exact absurd hc (by simp)
  · intro h1 h2
    rw [routeQueryType, extractQueryType]
    cases hscan : scanQueryTypeTok false response.data with
    | none =>
      obtain ⟨_, hmu⟩ := scan_none_not_contains response.data false hscan
      rw [containsWordToken] at h1; rw [h1] at hmu; exact absurd hmu (by simp)
    | some t =>
      rcases scan_some_cases response.data false t hscan with ⟨ht, hc⟩ | ⟨ht, _⟩
      · rw [containsWordToken] at h2; rw [h2] at hc; exact absurd hc (by simp)
      · subst ht; rfl

/-- Witness for C7: `"the answer is: multi"` contains `MULTI` but not
`SIMPLE` and routes to `MULTI`; `"Simple."` contains `SIMPLE` but not
`MULTI` and routes to `SIMPLE`; `"I do not know"` contains neither and
routes to `MULTI`. -/
theorem classification_default_multi_witness :
    routeQueryType "the answer is: multi" = .MULTI ∧
    routeQueryType "Simple." = .SIMPLE ∧
    routeQueryType "I do not know" = .MULTI := by
  refine ⟨?_, ?_, ?_⟩
  · exact (classification_default_multi "the answer is: multi").2.2
      (by decide) (by decide)
  · exact (classification_default_multi "Simple.").2.1 (by decide) (by decide)
  · exact (classification_default_multi "I do not know").1 (by decide) (by decide)


/-! ## Claims C2, C3, C4, C9, C10: session store -/

/-- Number of sessions the store currently tracks for an owner. -/
def userSessionCount (userId : String) (st : MemoryState) : Nat :=
  ((st.userSessions.lookup userId).getD []).length

/-- **C2 (amended).** `init_session` performs no quota check and never evicts:
for a fresh session id, every previously resident session survives the
creation unchanged, the new session is inserted, and the owner's tracked
session count grows by one — without bound. -/
theorem session_creation_never_evicts (st : MemoryState)
    (userId sessionId : String) (now : Nat)
    (hfresh : sessionId ∉ (st.userSessions.lookup userId).getD []) :
    ((initSession userId sessionId now st).2.sessions.lookup sessionId
        = some ⟨[], now, userId⟩) ∧
    (∀ sid, sid ≠ sessionId →
      (initSession userId sessionId now st).2.sessions.lookup sid
        = st.sessions.lookup sid) ∧
    userSessionCount userId (initSession userId sessionId now st).2
      = userSessionCount userId st + 1 := by
  refine ⟨?_, ?_, ?_⟩
  · exact lookup_aset_self sessionId _ st.sessions
  · intro sid hne
    exact lookup_aset_ne sessionId sid _ st.sessions hne
  · rw [userSessionCount, userSessionCount]
    have hus : (initSession userId sessionId now st).2.userSessions
        = addUserSession userId sessionId st.userSessions := rfl
    cases hl : st.userSessions.lookup userId with
    | none =>
      simp only [hus, addUserSession, hl, lookup_aset_self]
      simp
    | some sids =>
      rw [hl] at hfresh
      simp only [Option.getD] at hfresh
      simp only [hus, addUserSession, hl]
      rw [if_neg hfresh, lookup_aset_self]
      simp

/-- Metadata record as written by `save_session_metadata` at clock 0. -/
def metaAlice : List (String × String) :=
  [("owner", "alice"), ("user_name", "User"),
   ("created_at", "0"), ("last_updated", "0")]

/-- A store state in which owner `alice` already holds one session. -/
def stC2 : MemoryState where
  sessions := [("00000000-0000-4000-8000-000000000001", ⟨[], 0, "alice"⟩)]
  userSessions := [("alice", ["00000000-0000-4000-8000-000000000001"])]
  files := []
  metas := [("00000000-0000-4000-8000-000000000001", metaAlice)]

/-- **C2 (counterexample).** With capacity `K = 1` and `alice` already holding
one session, creating a second session completes without evicting anything:
afterwards `alice` holds two sessions and the original one is still
resident, contradicting "evicts exactly one … so that after every create the
owner holds at most K sessions". -/
theorem session_quota_counterexample :
    (((initSession "alice" "00000000-0000-4000-8000-000000000002" 1 stC2).2.userSessions.lookup
        "alice").getD []).length = 2 ∧
    (initSession "alice" "00000000-0000-4000-8000-000000000002" 1 stC2).2.sessions.lookup
        "00000000-0000-4000-8000-000000000001" = some ⟨[], 0, "alice"⟩ := by
  refine ⟨by decide, by decide⟩

/-- Witness for the amended C2 theorem, at the same concrete state. -/
theorem session_creation_never_evicts_witness :
    ((initSession "alice" "00000000-0000-4000-8000-000000000002" 1 stC2).2.sessions.lookup
        "00000000-0000-4000-8000-000000000002" = some ⟨[], 1, "alice"⟩) ∧
    userSessionCount "alice"
        (initSession "alice" "00000000-0000-4000-8000-000000000002" 1 stC2).2
      = userSessionCount "alice" stC2 + 1 := by
  have h := session_creation_never_evicts stC2 "alice"
    "00000000-0000-4000-8000-000000000002" 1 (by decide)
  exact ⟨h.1, h.2.2⟩

/-- A resident, brand-new session (created in memory, two turns appended,
no durable history file yet — `init_session` writes only metadata). -/
def stC3 : MemoryState where
  sessions :=
    [("00000000-0000-4000-8000-000000000003",
      ⟨[⟨"human", "hi"⟩, ⟨"ai", "hello"⟩], 0, "alice"⟩)]
  userSessions := [("alice", ["00000000-0000-4000-8000-000000000003"])]
  files := []
  metas := [("00000000-0000-4000-8000-000000000003", metaAlice)]

/-- **C3 (code bug).** For a resident brand-new session with a non-empty
history and no durable history file, `persist_session` fetches the messages
(the session is found) and hands them to `append_message` — which silently
skips the write because the file does not exist: afterwards there is still
no durable snapshot.  The spec requires the first write not to be skipped. -/
theorem persist_skips_new_session :
    (getSession "00000000-0000-4000-8000-000000000003" 1 stC3).1
      = some [⟨"human", "hi"⟩, ⟨"ai", "hello"⟩] ∧
    stC3.files.lookup "00000000-0000-4000-8000-000000000003" = none ∧
    (persistSession "00000000-0000-4000-8000-000000000003" 1 stC3).files.lookup
        "00000000-0000-4000-8000-000000000003" = none := by
  refine ⟨by decide, by decide, by decide⟩

/-- The empty store. -/
def emptyState : MemoryState where
  sessions := []
  userSessions := []
  files := []
  metas := []

/-- **C4 (code bug).** `save_session_metadata` records the owner under the
`"owner"` key, but the fallback read in `validate_session_owner` looks up
the `"user_id"` key (default `"anonymous"`).  Hence for a session that is
not resident but whose durable metadata names owner `alice`, validation
rejects `alice` and accepts `"anonymous"` — the durable ownership record
never validates its real owner. -/
theorem ownership_metadata_key_mismatch :
    validateSessionOwner "00000000-0000-4000-8000-000000000004" "alice"
        (saveSessionMetadata "00000000-0000-4000-8000-000000000004" "alice" 0 emptyState)
      = false ∧
    validateSessionOwner "00000000-0000-4000-8000-000000000004" "anonymous"
        (saveSessionMetadata "00000000-0000-4000-8000-000000000004" "alice" 0 emptyState)
      = true ∧
    loadSessionMetadata "00000000-0000-4000-8000-000000000004"
        (saveSessionMetadata "00000000-0000-4000-8000-000000000004" "alice" 0 emptyState)
      = some metaAlice := by
  refine ⟨by decide, by decide, by decide⟩


/-! ## Claim C8: tool execution failure -/

/-- **C8 (amended).** `_execute_search_tools` has no exception handling: when
the first planned call fails — missing tool name, unregistered tool (both
leave `tool_fn = None`, raising `TypeError` at the call), missing params, or
the tool raising — the exception propagates out of the execution, whatever
further calls were planned; the remaining tools are not executed and no
context (not even a partial one) is assembled. -/
theorem tool_failure_propagates {Params : Type}
    (registry : String → Option (ToolFn Params))
    (c : ToolCall Params) (rest : List (ToolCall Params)) :
    (c.tool = none → ∃ e, executeSearchToolsOutput registry (c :: rest)
        = Except.error e) ∧
    (∀ name, c.tool = some name → registry name = none →
      ∃ e, executeSearchToolsOutput registry (c :: rest) = Except.error e) ∧
    (∀ name fn ps e, c.tool = some name → registry name = some fn →
      c.params = some ps → fn ps = Except.error e →
      executeSearchToolsOutput registry (c :: rest) = Except.error e) := by
  refine ⟨?_, ?_, ?_⟩
  · intro h
    refine ⟨⟨"TypeError: NoneType object is not callable"⟩, ?_⟩
    simp only [executeSearchToolsOutput, executeSearchTools, h]
  · intro name h hr
    refine ⟨⟨"TypeError: NoneType object is not callable"⟩, ?_⟩
    simp only [executeSearchToolsOutput, executeSearchTools, h, hr]
  · intro name fn ps e h hr hp he
    simp only [executeSearchToolsOutput, executeSearchTools, h, hr, hp, he]

/-- Registry for the C8 scenario: tool `a` raises, tool `b` works. -/
def c8Registry : String → Option (ToolFn Unit) := fun n =>
  if n = "a" then some (fun _ => Except.error ⟨"boom"⟩)
  else if n = "b" then some (fun _ => Except.ok "results of b")
  else none

/-- The planned calls of the C8 scenario: first `a` (raises), then `b`. -/
def c8Calls : List (ToolCall Unit) :=
  [⟨some "a", some ()⟩, ⟨some "b", some ()⟩]

/-- **C8 (counterexample).** With tool `a` raising and the healthy tool `b`
still planned after it, the execution propagates the exception instead of
treating `a`'s contribution as empty and continuing: under the claim the
result would have been the assembled context of `b` alone. -/
theorem tool_failure_counterexample :
    executeSearchToolsOutput c8Registry c8Calls = Except.error ⟨"boom"⟩ ∧
    (c8Registry "b").isSome = true ∧
    executeSearchToolsOutput c8Registry [⟨some "b", some ()⟩]
      = Except.ok "[Result of the search tool b]:\nresults of b" := by
  refine ⟨rfl, rfl, ?_⟩
  rfl

/-- Witness for the amended C8 theorem on the concrete scenario. -/
theorem tool_failure_propagates_witness :
    executeSearchToolsOutput c8Registry c8Calls = Except.error ⟨"boom"⟩ := by
  exact (tool_failure_propagates c8Registry ⟨some "a", some ()⟩
    [⟨some "b", some ()⟩]).2.2 "a" (fun _ => Except.error ⟨"boom"⟩) () ⟨"boom"⟩
    rfl rfl rfl rfl

/-! ## Claims C9, C10: delete idempotence and the exists guard -/

theorem deleteSession_not_resident (st : MemoryState) (sessionId : String)
    (h : st.sessions.lookup sessionId = none) :
    deleteSession sessionId st = (false, st) := by
  simp only [deleteSession, h, Option.isSome_none, Bool.false_eq_true,
    if_false, aremove_eq_of_lookup_none sessionId st.sessions h]

/-- **C9.** Deleting a resident (existing) session returns `true`, removes it
from the resident map and deletes both durable records; a second delete of
the same id returns `false` and leaves the state untouched — no error in
either call. -/
theorem delete_session_idempotent (st : MemoryState) (sessionId : String)
    (h : (st.sessions.lookup sessionId).isSome = true) :
    (deleteSession sessionId st).1 = true ∧
    (deleteSession sessionId st).2.sessions.lookup sessionId = none ∧
    (deleteSession sessionId st).2.files.lookup sessionId = none ∧
    (deleteSession sessionId st).2.metas.lookup sessionId = none ∧
    deleteSession sessionId (deleteSession sessionId st).2
      = (false, (deleteSession sessionId st).2) := by
  obtain ⟨rec, hrec⟩ := Option.isSome_iff_exists.mp h
  have hfields : (deleteSession sessionId st).2.sessions
        = aremove sessionId st.sessions ∧
      (deleteSession sessionId st).2.files = aremove sessionId st.files ∧
      (deleteSession sessionId st).2.metas = aremove sessionId st.metas := by
    simp only [deleteSession, hrec, Option.isSome_some, if_true,
      deleteSessionFile]
    repeat first
    | exact ⟨rfl, rfl, rfl⟩
    | split
  have h1 : (deleteSession sessionId st).1 = true := by
    simp only [deleteSession, hrec, Option.isSome_some, if_true]
  have h2 : (deleteSession sessionId st).2.sessions.lookup sessionId = none := by
    rw [hfields.1]; exact lookup_aremove_self sessionId st.sessions
  refine ⟨h1, h2, ?_, ?_, ?_⟩
  · rw [hfields.2.1]; exact lookup_aremove_self sessionId st.files
  · rw [hfields.2.2]; exact lookup_aremove_self sessionId st.metas
  · exact deleteSession_not_resident _ sessionId h2

/-- A state with one resident session owned by `bob`, durable records
present. -/
def stC9 : MemoryState where
  sessions := [("00000000-0000-4000-8000-000000000009", ⟨[⟨"human", "hi"⟩], 0, "bob"⟩)]
  userSessions := [("bob", ["00000000-0000-4000-8000-000000000009"])]
  files := [("00000000-0000-4000-8000-000000000009", [⟨"human", "hi"⟩])]
  metas := [("00000000-0000-4000-8000-000000000009",
    [("owner", "bob"), ("user_name", "User"),
     ("created_at", "0"), ("last_updated", "0")])]

/-- Witness for C9 at a concrete resident session. -/
theorem delete_session_idempotent_witness :
    (deleteSession "00000000-0000-4000-8000-000000000009" stC9).1 = true ∧
    deleteSession "00000000-0000-4000-8000-000000000009"
        (deleteSession "00000000-0000-4000-8000-000000000009" stC9).2
      = (false, (deleteSession "00000000-0000-4000-8000-000000000009" stC9).2) := by
  have h := delete_session_idempotent stC9
    "00000000-0000-4000-8000-000000000009" (by decide)
  exact ⟨h.1, h.2.2.2.2⟩

/-- **C10.** `session_exists` consults only the resident map: a session that
is not resident but has a durable (non-empty) history on disk does not
"exist", so the message endpoint rejects the request with its 404 guard —
although `get_session` on the very same state would successfully rehydrate
the session from disk. -/
theorem exists_checks_resident_only (st : MemoryState) (sessionId : String)
    (now : Nat) (h1 : st.sessions.lookup sessionId = none)
    (h2 : ∃ msgs, st.files.lookup sessionId = some msgs ∧ msgs ≠ []) :
    sessionExists sessionId st = false ∧
    chatbotReplyRoute sessionId st = .notFound ∧
    ((getSession sessionId now st).1).isSome = true := by
  obtain ⟨msgs, hf, hne⟩ := h2
  have hex : sessionExists sessionId st = false := by
    rw [sessionExists, h1]
    rfl
  refine ⟨hex, ?_, ?_⟩
  · rw [chatbotReplyRoute, hex]
    rfl
  · have hemp : msgs.isEmpty = false := by
      cases msgs with
      | nil => exact absurd rfl hne
      | cons a l => rfl
    simp only [getSession, h1, loadSession, hf, Option.getD, hemp,
      Bool.false_eq_true, if_false]
    rfl

/-- A state holding only a durable two-message history for a session that is
not resident. -/
def stC10 : MemoryState where
  sessions := []
  userSessions := []
  files := [("00000000-0000-4000-8000-000000000010",
    [⟨"human", "hi"⟩, ⟨"ai", "hello"⟩])]
  metas := [("00000000-0000-4000-8000-000000000010",
    [("owner", "carol"), ("user_name", "User"),
     ("created_at", "0"), ("last_updated", "0")])]

/-- Witness for C10 at a concrete disk-only session. -/
theorem exists_checks_resident_only_witness :
    sessionExists "00000000-0000-4000-8000-000000000010" stC10 = false ∧
    chatbotReplyRoute "00000000-0000-4000-8000-000000000010" stC10
      = RouteResult.notFound ∧
    ((getSession "00000000-0000-4000-8000-000000000010" 1 stC10).1).isSome
      = true := by
  exact exists_checks_resident_only stC10
    "00000000-0000-4000-8000-000000000010" 1 (by decide)
    ⟨[⟨"human", "hi"⟩, ⟨"ai", "hello"⟩], by decide, by decide⟩


end ChatbotCore
